import Mathlib

/-!
Shallow embedding of `src/update_records.py`, a dynv6 dynamic-DNS update
script.  The script is a single linear `main`: it parses arguments, loads a
cached snapshot from the `.records` file, resolves a zone id, discovers the
host's current IPv6 address, decides per address family whether to create,
update or leave alone the corresponding DNS record (or, with no record
name given, the zone itself), and finally rewrites the snapshot file.

The embedding below models every network response as input data (a
`Provider` structure), the snapshot file content as a list of JSON objects,
and the run as a total function `runMain` producing the list of API calls
issued, the error reports emitted, the content written back to the snapshot
file (`persisted`, `none` when the run dies before the final write), and a
few observed intermediate values (the effective cached record per family,
and the zone id used for record calls).

Python truthiness (`if zone_id:`, `if prefix:`) is modelled explicitly by
`truthyZ` / `truthyS`; `x is None` tests are `Option` pattern matches;
uncaught exceptions (`TypeError` from `int(None)`, `AssertionError`,
`KeyError` on a missing JSON field) are modelled as `AbortKind` outcomes
that leave the snapshot file unwritten.  In the source as committed,
`current_ipv4_address` is always `None` (the ipify lookup is commented
out), and the embedding keeps that fixed.
-/

set_option autoImplicit false

/-- A JSON object restricted to the fields the script ever reads or writes.
An absent key is `none`; the script only ever stores strings and integers
in these positions.  The provider's `ipv6_prefix` response field is named
`ipv6pfx` here. -/
structure JObj where
  zone_id : Option Int := none
  ipv4 : Option String := none
  ipv6 : Option String := none
  type : Option String := none
  name : Option String := none
  data : Option String := none
  id : Option Int := none
  ipv4_address : Option String := none
  ipv6pfx : Option String := none
deriving DecidableEq

/-- The payload dict `{"type": ..., "name": ..., "data": ...}` built for
record create/update calls. -/
structure RecordPayload where
  type : String
  name : String
  data : String
deriving DecidableEq

/-- One HTTP call to the dynv6 REST API, with the data the script puts in
the request.  Zone ids appear as `Option Int` because the script happily
interpolates `None` into record URLs. -/
inductive ApiCall where
  | getZones
  | createZone (name : String) (ipv4_address : Option String) (ipv6pfx : Option String)
  | updateZone (zoneId : Int) (ipv4_address : Option String) (ipv6pfx : Option String)
  | listRecords (zoneId : Option Int)
  | createRecord (zoneId : Option Int) (payload : RecordPayload)
  | updateRecord (zoneId : Option Int) (recordId : Int) (payload : RecordPayload)
deriving DecidableEq

/-- The two error reports the record-update branch can print. -/
inductive ErrReport where
  | updateMismatch (requested : Int) (returned : Int)
  | updateFailed (recordId : Int)
deriving DecidableEq

/-- Uncaught exceptions that kill the run before the snapshot write:
`TypeError` from `int(None)` when no `-z` argument is given, the cache
`assert record_zone_id == zone_id`, a `KeyError` on `record["data"]` /
`record["id"]` during record discovery, a `KeyError` on `data["id"]` of the
zone-update response, and the `assert data["id"] == zone_id` after a zone
update. -/
inductive AbortKind where
  | intOfNone
  | cacheZoneAssert
  | scanKeyError
  | zoneRespKeyError
  | zoneIdAssert
deriving DecidableEq

/-- The provider's responses, one per endpoint the script can hit; record
create/update responses may depend on what was sent. -/
structure Provider where
  zonesResp : List JObj
  recordsResp : List JObj
  createZoneResp : JObj
  updateZoneResp : JObj
  createRecordResp : RecordPayload → JObj
  updateRecordResp : Int → RecordPayload → JObj

/-- One run's inputs: the `-z` and `-p` arguments, the parsed `.records`
file content (`none` when the file is missing or not valid JSON), the
discovered IPv6 source address (`none` on any `OSError`), and the provider
responses. -/
structure Inputs where
  zone : Option String
  pfx : Option String
  cache : Option (List JObj)
  current_ipv6 : Option String
  provider : Provider

/-- The mutable locals of `main` that the cache-loading loop, the zone
lookup and the discovery scan fill in. -/
structure CacheSt where
  zone_id : Option Int := none
  ipv4_record : Option Int := none
  ipv6_record : Option Int := none
  ipv4_record_address : Option String := none
  ipv6_record_address : Option String := none
  zone_ipv4 : Option String := none
  zone_ipv6 : Option String := none
deriving DecidableEq

/-- What one run did: API calls in order, error reports, the content
written to the snapshot file (`none` when the run aborted before the
write), the abort cause if any, the zone id the record calls used, and the
effective cached record (id, address) per family at the decision point. -/
structure RunResult where
  calls : List ApiCall := []
  errors : List ErrReport := []
  persisted : Option (List JObj) := none
  aborted : Option AbortKind := none
  zid : Option Int := none
  eff4 : Option Int × Option String := (none, none)
  eff6 : Option Int × Option String := (none, none)
deriving DecidableEq

/-- Python truthiness of an optional integer: `None` and `0` are falsy. -/
def truthyZ : Option Int → Bool
  | none => false
  | some n => n != 0

/-- Python truthiness of an optional string: `None` and `""` are falsy. -/
def truthyS : Option String → Bool
  | none => false
  | some s => s != ""

/-- One decimal digit of `int()` parsing. -/
def digitVal (c : Char) : Option Nat :=
  if c.isDigit then some (c.toNat - 48) else none

/-- Accumulate decimal digits; `none` accumulator means no digit seen yet. -/
def digitsVal : List Char → Option Nat → Option Nat
  | [], acc => acc
  | c :: cs, acc =>
    match digitVal c, acc with
    | some d, some n => digitsVal cs (some (n * 10 + d))
    | some d, none => digitsVal cs (some d)
    | none, _ => none

/-- Models Python `int(s)` on a string as used at the top of `main`: an
optional minus sign followed by decimal digits, `none` when the string does
not parse (the `ValueError` branch). -/
def pyInt? (s : String) : Option Int :=
  match s.toList with
  | '-' :: rest => (digitsVal rest none).map (fun n => -(n : Int))
  | l => (digitsVal l none).map (fun n => (n : Int))

/-- One iteration of the cache-loading loop over the parsed `.records`
array (source lines 86-104).  A `zone_id` entry records the zone identity
and addresses and must agree with an already-truthy `zone_id`; other
entries are keyed on their `type` field alone. -/
def loadCacheStep (st : CacheSt) (record : JObj) : Except AbortKind CacheSt :=
  match record.zone_id with
  | some record_zone_id =>
    let st := { st with zone_ipv4 := record.ipv4, zone_ipv6 := record.ipv6 }
    if truthyZ st.zone_id then
      if st.zone_id = some record_zone_id then .ok st else .error .cacheZoneAssert
    else .ok { st with zone_id := some record_zone_id }
  | none =>
    if record.type = some "A" then
      .ok { st with ipv4_record := record.id, ipv4_record_address := record.data }
    else if record.type = some "AAAA" then
      .ok { st with ipv6_record := record.id, ipv6_record_address := record.data }
    else .ok st

/-- The whole cache-loading loop. -/
def loadCache (st : CacheSt) : List JObj → Except AbortKind CacheSt
  | [] => .ok st
  | r :: rs =>
    match loadCacheStep st r with
    | .ok st2 => loadCache st2 rs
    | .error e => .error e

/-- Initial locals plus the cache file: a missing or malformed file leaves
everything at its initial value (source lines 105-108). -/
def cacheLoad (z : String) (cache : Option (List JObj)) : Except AbortKind CacheSt :=
  match cache with
  | none => .ok { zone_id := pyInt? z }
  | some entries => loadCache { zone_id := pyInt? z } entries

/-- `get_zone` (source lines 17-26): first zone object whose `name` field
equals the queried domain, else the empty dict. -/
def get_zone (domain : String) (zones : List JObj) : JObj :=
  (zones.find? (fun zone => zone.name = some domain)).getD {}

/-- State effect of the fallback zone lookup (source lines 110-115). -/
def resolveZoneSt (z : String) (st : CacheSt) (zones : List JObj) : CacheSt :=
  if truthyZ st.zone_id then st
  else
    let zone_data := get_zone z zones
    { st with zone_id := zone_data.id, zone_ipv4 := zone_data.ipv4_address,
              zone_ipv6 := zone_data.ipv6pfx }

/-- The API call the fallback zone lookup issues, if any. -/
def resolveZoneCalls (_z : String) (st : CacheSt) : List ApiCall :=
  if truthyZ st.zone_id then [] else [ApiCall.getZones]

/-- State effect of the zone-registration branch (source lines 160-180):
with no truthy zone id, POST a new zone and adopt the response's id; on a
truthy response id also adopt its addresses. -/
def createZoneSt (st : CacheSt) (prov : Provider) : CacheSt :=
  if truthyZ st.zone_id then st
  else
    let data := prov.createZoneResp
    if truthyZ data.id then
      { st with zone_id := data.id, zone_ipv4 := data.ipv4_address, zone_ipv6 := data.ipv6pfx }
    else { st with zone_id := data.id }

/-- The API call of the zone-registration branch, if any. -/
def createZoneCalls (z : String) (st : CacheSt) (cur4 cur6 : Option String) : List ApiCall :=
  if truthyZ st.zone_id then []
  else [ApiCall.createZone z (if truthyS cur4 then cur4 else none)
          (if truthyS cur6 then cur6 else none)]

/-- The result-snapshot entry the zone-registration branch appends, if any. -/
def createZoneResults (st : CacheSt) (prov : Provider) : List JObj :=
  if truthyZ st.zone_id then []
  else
    let data := prov.createZoneResp
    if truthyZ data.id then
      [{ zone_id := data.id,
         ipv4 := if truthyS data.ipv4_address then data.ipv4_address else none,
         ipv6 := if truthyS data.ipv6pfx then data.ipv6pfx else none }]
    else []

/-- One iteration of the record-discovery scan (source lines 189-196): an
entry whose `name` equals the requested record name overwrites the cached
id and address of the family given by its `type`; a matching entry missing
`data` or `id` raises `KeyError`. -/
def scanStep (pfxS : String) (st : CacheSt) (record : JObj) : Except AbortKind CacheSt :=
  if record.name = some pfxS then
    if record.type = some "A" then
      match record.data, record.id with
      | some d, some i => .ok { st with ipv4_record_address := some d, ipv4_record := some i }
      | _, _ => .error .scanKeyError
    else if record.type = some "AAAA" then
      match record.data, record.id with
      | some d, some i => .ok { st with ipv6_record_address := some d, ipv6_record := some i }
      | _, _ => .error .scanKeyError
    else .ok st
  else .ok st

/-- The whole record-discovery scan over the listRecords response. -/
def scanRecords (pfxS : String) (st : CacheSt) : List JObj → Except AbortKind CacheSt
  | [] => .ok st
  | r :: rs =>
    match scanStep pfxS st r with
    | .ok st2 => scanRecords pfxS st2 rs
    | .error e => .error e

/-- The effective cached records: the scan runs exactly when neither family
has a cached record id (source line 184). -/
def effSt (pfxS : String) (st : CacheSt) (prov : Provider) : Except AbortKind CacheSt :=
  if st.ipv4_record = none ∧ st.ipv6_record = none then scanRecords pfxS st prov.recordsResp
  else .ok st

/-- The listRecords call, issued exactly when the scan runs. -/
def discCalls (st : CacheSt) : List ApiCall :=
  if st.ipv4_record = none ∧ st.ipv6_record = none then [ApiCall.listRecords st.zone_id]
  else []

/-- The per-family work list (source lines 198-215): one triple (cached id,
cached address, payload) per family whose current address `is not None`.
`cur4` is always `none` in the committed source. -/
def buildRecords (pfxS : String) (cur4 cur6 : Option String) (st : CacheSt) :
    List (Option Int × Option String × RecordPayload) :=
  (match cur4 with
   | none => []
   | some a => [(st.ipv4_record, st.ipv4_record_address, ⟨"A", pfxS, a⟩)]) ++
  (match cur6 with
   | none => []
   | some a => [(st.ipv6_record, st.ipv6_record_address, ⟨"AAAA", pfxS, a⟩)])

/-- One iteration of the apply loop (source lines 217-252).  No cached id:
POST a new record and store the response id into the appended entry.
Cached id with a different cached address: PATCH the record; a falsy
response id is reported as an update failure, a truthy response id
different from the requested one as a mismatch; either way the appended
entry is the payload itself, which never carries an id.  Cached id with an
equal address: no call; the appended entry is again the bare payload. -/
def processRecord (prov : Provider) (zid : Option Int)
    (item : Option Int × Option String × RecordPayload) :
    List ApiCall × List ErrReport × JObj :=
  match item with
  | (none, _, payload) =>
    ([ApiCall.createRecord zid payload], [],
     { type := some payload.type, name := some payload.name, data := some payload.data,
       id := (prov.createRecordResp payload).id })
  | (some record_id, address, payload) =>
    if address ≠ some payload.data then
      let result_id := (prov.updateRecordResp record_id payload).id
      let errs : List ErrReport :=
        if truthyZ result_id then
          if result_id = some record_id then []
          else [ErrReport.updateMismatch record_id (result_id.getD 0)]
        else [ErrReport.updateFailed record_id]
      ([ApiCall.updateRecord zid record_id payload], errs,
       { type := some payload.type, name := some payload.name, data := some payload.data })
    else
      ([], [],
       { type := some payload.type, name := some payload.name, data := some payload.data })

/-- The apply loop over the work list: concatenated calls, concatenated
error reports, and the appended snapshot entries in order. -/
def processRecordsList (prov : Provider) (zid : Option Int) :
    List (Option Int × Option String × RecordPayload) →
    List ApiCall × List ErrReport × List JObj
  | [] => ([], [], [])
  | item :: rest =>
    let s := processRecord prov zid item
    let t := processRecordsList prov zid rest
    (s.1 ++ t.1, s.2.1 ++ t.2.1, s.2.2 :: t.2.2)

/-- The zone-apex branch (source lines 131-158), taken when a truthy zone
id is known and no record name was given.  A PATCH is sent iff some truthy
current address differs from the zone's cached address; the response must
echo the zone id (`KeyError` / `AssertionError` otherwise), and on success
the single result entry records the zone id and the truthy current
addresses. -/
def zoneApexRun (calls0 : List ApiCall) (st : CacheSt) (cur4 cur6 : Option String)
    (prov : Provider) : RunResult :=
  let zid := st.zone_id.getD 0
  let a4 := if truthyS cur4 ∧ st.zone_ipv4 ≠ cur4 then cur4 else none
  let a6 := if truthyS cur6 ∧ st.zone_ipv6 ≠ cur6 then cur6 else none
  if a4.isSome ∨ a6.isSome then
    match prov.updateZoneResp.id with
    | none =>
      { calls := calls0 ++ [ApiCall.updateZone zid a4 a6], aborted := some .zoneRespKeyError,
        zid := some zid }
    | some i =>
      if i = zid then
        { calls := calls0 ++ [ApiCall.updateZone zid a4 a6],
          persisted := some [{ zone_id := some zid,
                               ipv4 := if truthyS cur4 then cur4 else none,
                               ipv6 := if truthyS cur6 then cur6 else none }],
          zid := some zid }
      else
        { calls := calls0 ++ [ApiCall.updateZone zid a4 a6], aborted := some .zoneIdAssert,
          zid := some zid }
  else { calls := calls0, persisted := some [], zid := some zid }

/-- State after the fallback zone lookup. -/
def st2of (z : String) (st1 : CacheSt) (prov : Provider) : CacheSt :=
  resolveZoneSt z st1 prov.zonesResp

/-- State after the zone-registration branch. -/
def st3of (z : String) (st1 : CacheSt) (prov : Provider) : CacheSt :=
  createZoneSt (st2of z st1 prov) prov

/-- The `else` branch of `main` (source lines 159-252): possibly register a
zone, then, when a record name was given, possibly discover records and run
the apply loop; the snapshot content is the zone entry (if one was created)
followed by the per-family entries. -/
def recordBranch (z : String) (st1 : CacheSt) (pfx cur6 : Option String)
    (prov : Provider) : RunResult :=
  let st3 := st3of z st1 prov
  let baseCalls := resolveZoneCalls z st1 ++ createZoneCalls z (st2of z st1 prov) none cur6
  let zres := createZoneResults (st2of z st1 prov) prov
  if truthyS pfx then
    match effSt (pfx.getD "") st3 prov with
    | .error e =>
      { calls := baseCalls ++ discCalls st3, aborted := some e, zid := st3.zone_id }
    | .ok st4 =>
      let out := processRecordsList prov st3.zone_id (buildRecords (pfx.getD "") none cur6 st4)
      { calls := baseCalls ++ discCalls st3 ++ out.1, errors := out.2.1,
        persisted := some (zres ++ out.2.2), zid := st3.zone_id,
        eff4 := (st4.ipv4_record, st4.ipv4_record_address),
        eff6 := (st4.ipv6_record, st4.ipv6_record_address) }
  else { calls := baseCalls, persisted := some zres, zid := st3.zone_id }

/-- Everything after the cache load: the fallback zone lookup, then either
the zone-apex branch or the zone-create / record branch.
`current_ipv4_address` is fixed to `none`, as in the committed source. -/
def runAfterCache (z : String) (st1 : CacheSt) (pfx cur6 : Option String)
    (prov : Provider) : RunResult :=
  let st2 := st2of z st1 prov
  if truthyZ st2.zone_id ∧ ¬ truthyS pfx then
    zoneApexRun (resolveZoneCalls z st1) st2 none cur6 prov
  else recordBranch z st1 pfx cur6 prov

/-- The whole run of `main`. -/
def runMain (inp : Inputs) : RunResult :=
  match inp.zone with
  | none => { aborted := some AbortKind.intOfNone }
  | some z =>
    match cacheLoad z inp.cache with
    | .error e => { aborted := some e }
    | .ok st1 => runAfterCache z st1 inp.pfx inp.current_ipv6 inp.provider

/-- Drop the `name` field of a JSON object (used to state that the cache
loader never consults a cached record's name). -/
def eraseName (j : JObj) : JObj := { j with name := none }

/-- The last entry of a record list whose `name` and `type` match; this is
the specification-side characterisation of what the discovery scan adopts. -/
def specLastMatch (pfxS ty : String) : List JObj → Option JObj
  | [] => none
  | j :: rest =>
    match specLastMatch pfxS ty rest with
    | some k => some k
    | none => if j.name = some pfxS ∧ j.type = some ty then some j else none

/-- Is a call a record create? -/
def ApiCall.isCreate : ApiCall → Bool
  | .createRecord _ _ => true
  | _ => false

/-- Is a call a record update? -/
def ApiCall.isUpdate : ApiCall → Bool
  | .updateRecord _ _ _ => true
  | _ => false

/-- Is a call a record listing? -/
def ApiCall.isList : ApiCall → Bool
  | .listRecords _ => true
  | _ => false

/-- Does a call carry a record payload of the given type? -/
def ApiCall.refersType (ty : String) : ApiCall → Bool
  | .createRecord _ p => p.type == ty
  | .updateRecord _ _ p => p.type == ty
  | _ => false

/-- Is a call a zone create or zone update? -/
def ApiCall.isZoneWrite : ApiCall → Bool
  | .createZone _ _ _ => true
  | .updateZone _ _ _ => true
  | _ => false

/-! Concrete runs used in witnesses and counterexamples. -/

/-- A provider all of whose responses are empty objects / lists. -/
def provNo : Provider :=
  { zonesResp := [], recordsResp := [], createZoneResp := {}, updateZoneResp := {},
    createRecordResp := fun _ => {}, updateRecordResp := fun _ _ => {} }

/-- Fresh cache, numeric zone argument, discovery finds nothing, create
succeeds with id 7. -/
def inpC1w : Inputs :=
  { zone := some "5", pfx := some "home", cache := none, current_ipv6 := some "x",
    provider := { provNo with createRecordResp := fun _ => { id := some 7 } } }

/-- Cached record id 7 at address "old", new address "new", update response
carries no id (failure). -/
def inpC2 : Inputs :=
  { zone := some "5", pfx := some "home",
    cache := some [{ type := some "AAAA", name := some "home", data := some "old", id := some 7 }],
    current_ipv6 := some "new", provider := provNo }

/-- Fresh cache and no discovered address at all. -/
def inpC3x : Inputs :=
  { zone := some "5", pfx := some "home", cache := none, current_ipv6 := none,
    provider := provNo }

/-- Fresh cache; the provider already holds a matching record id 9 whose
data equals the discovered address. -/
def inpC3w : Inputs :=
  { zone := some "5", pfx := some "home", cache := none, current_ipv6 := some "d",
    provider := { provNo with
      recordsResp := [{ name := some "home", type := some "AAAA", data := some "d", id := some 9 }] } }

/-- The only cached record is named "other", not the requested "home". -/
def inpC4x : Inputs :=
  { zone := some "5", pfx := some "home",
    cache := some [{ type := some "AAAA", name := some "other", data := some "d", id := some 5 }],
    current_ipv6 := some "new",
    provider := { provNo with updateRecordResp := fun rid _ => { id := some rid } } }

/-- Cached record id 7 whose address equals the discovered one. -/
def inpC5 : Inputs :=
  { zone := some "7", pfx := some "home",
    cache := some [{ type := some "AAAA", name := some "home", data := some "x", id := some 7 }],
    current_ipv6 := some "x", provider := provNo }

/-- Non-numeric zone name that no provider zone matches; zone creation
returns id 42 and record creation id 7. -/
def inpC6x : Inputs :=
  { zone := some "zz", pfx := some "home", cache := none, current_ipv6 := some "x",
    provider := { provNo with
      createZoneResp := { id := some 42 },
      createRecordResp := fun _ => { id := some 7 } } }

/-- Cached record for the IPv6 family, but discovery fails this run. -/
def inpC7 : Inputs :=
  { zone := some "7", pfx := some "home",
    cache := some [{ type := some "AAAA", name := some "home", data := some "x", id := some 7 }],
    current_ipv6 := none, provider := provNo }

/-- Two provider records both matching name "home" and type AAAA. -/
def recsC8 : List JObj :=
  [{ name := some "home", type := some "AAAA", data := some "d1", id := some 1 },
   { name := some "home", type := some "AAAA", data := some "d2", id := some 2 }]

/-- Fresh cache; listRecords returns two matching entries. -/
def inpC8 : Inputs :=
  { zone := some "5", pfx := some "home", cache := none, current_ipv6 := some "d2",
    provider := { provNo with recordsResp := recsC8 } }

/-- A run whose cached zone id comes from the argument: no zone call is
made, so no zone entry is produced. -/
def inpC9x : Inputs :=
  { zone := some "5", pfx := some "home",
    cache := some [{ type := some "AAAA", name := some "home", data := some "x", id := some 7 }],
    current_ipv6 := some "x", provider := provNo }

/-- A run with a failing record update, which still persists. -/
def inpC9w : Inputs :=
  { zone := some "5", pfx := some "home",
    cache := some [{ type := some "AAAA", name := some "home", data := some "old", id := some 7 }],
    current_ipv6 := some "new", provider := provNo }

/-- Zone-apex run whose zone-update response echoes id 6 instead of 5. -/
def inpC10a : Inputs :=
  { zone := some "5", pfx := none, cache := none, current_ipv6 := some "x",
    provider := { provNo with updateZoneResp := { id := some 6 } } }

/-- Record run whose record-update response echoes id 9 instead of 7. -/
def inpC10b : Inputs :=
  { zone := some "5", pfx := some "home",
    cache := some [{ type := some "AAAA", name := some "home", data := some "old", id := some 7 }],
    current_ipv6 := some "new",
    provider := { provNo with updateRecordResp := fun _ _ => { id := some 9 } } }

/-! Helper lemmas about the embedding, shared by the claim theorems. -/

theorem runMain_eq_record (inp : Inputs) (z : String) (st1 : CacheSt)
    (hz : inp.zone = some z) (hc : cacheLoad z inp.cache = Except.ok st1)
    (hp : truthyS inp.pfx = true) :
    runMain inp = recordBranch z st1 inp.pfx inp.current_ipv6 inp.provider := by
  unfold runMain
  simp only [hz]
  simp only [hc]
  unfold runAfterCache
  simp [hp]

theorem runMain_eq_apex (inp : Inputs) (z : String) (st1 : CacheSt)
    (hz : inp.zone = some z) (hc : cacheLoad z inp.cache = Except.ok st1)
    (hp : truthyS inp.pfx = false)
    (hzid : truthyZ (st2of z st1 inp.provider).zone_id = true) :
    runMain inp = zoneApexRun (resolveZoneCalls z st1) (st2of z st1 inp.provider)
      none inp.current_ipv6 inp.provider := by
  unfold runMain
  simp only [hz]
  simp only [hc]
  unfold runAfterCache
  simp [hp, hzid]

theorem recordBranch_err (z : String) (st1 : CacheSt) (pfx cur6 : Option String)
    (prov : Provider) (e : AbortKind)
    (hp : truthyS pfx = true)
    (hE : effSt (pfx.getD "") (st3of z st1 prov) prov = Except.error e) :
    recordBranch z st1 pfx cur6 prov =
      { calls := (resolveZoneCalls z st1 ++ createZoneCalls z (st2of z st1 prov) none cur6)
                  ++ discCalls (st3of z st1 prov),
        aborted := some e, zid := (st3of z st1 prov).zone_id } := by
  unfold recordBranch
  simp [hp, hE]

theorem recordBranch_ok (z : String) (st1 : CacheSt) (pfx cur6 : Option String)
    (prov : Provider) (st4 : CacheSt)
    (hp : truthyS pfx = true)
    (hE : effSt (pfx.getD "") (st3of z st1 prov) prov = Except.ok st4) :
    recordBranch z st1 pfx cur6 prov =
      { calls := (resolveZoneCalls z st1 ++ createZoneCalls z (st2of z st1 prov) none cur6)
                  ++ discCalls (st3of z st1 prov)
                  ++ (processRecordsList prov (st3of z st1 prov).zone_id
                       (buildRecords (pfx.getD "") none cur6 st4)).1,
        errors := (processRecordsList prov (st3of z st1 prov).zone_id
                    (buildRecords (pfx.getD "") none cur6 st4)).2.1,
        persisted := some (createZoneResults (st2of z st1 prov) prov ++
                      (processRecordsList prov (st3of z st1 prov).zone_id
                        (buildRecords (pfx.getD "") none cur6 st4)).2.2),
        aborted := none,
        zid := (st3of z st1 prov).zone_id,
        eff4 := (st4.ipv4_record, st4.ipv4_record_address),
        eff6 := (st4.ipv6_record, st4.ipv6_record_address) } := by
  unfold recordBranch
  simp [hp, hE]

theorem resolveZoneCalls_filter (z : String) (st : CacheSt) (p : ApiCall → Bool)
    (h : p ApiCall.getZones = false) : (resolveZoneCalls z st).filter p = [] := by
  unfold resolveZoneCalls
  split
  · rfl
  · simp [List.filter, h]

theorem createZoneCalls_filter (z : String) (st : CacheSt) (cur4 cur6 : Option String)
    (p : ApiCall → Bool) (h : ∀ n a b, p (ApiCall.createZone n a b) = false) :
    (createZoneCalls z st cur4 cur6).filter p = [] := by
  unfold createZoneCalls
  split
  · rfl
  · simp [List.filter, h]

theorem discCalls_filter (st : CacheSt) (p : ApiCall → Bool)
    (h : ∀ zo, p (ApiCall.listRecords zo) = false) :
    (discCalls st).filter p = [] := by
  unfold discCalls
  split
  · simp [List.filter, h]
  · rfl

theorem processRecordsList_nil (prov : Provider) (zid : Option Int) :
    processRecordsList prov zid [] = ([], [], []) := rfl

theorem processRecordsList_cons (prov : Provider) (zid : Option Int)
    (item : Option Int × Option String × RecordPayload)
    (rest : List (Option Int × Option String × RecordPayload)) :
    processRecordsList prov zid (item :: rest) =
      ((processRecord prov zid item).1 ++ (processRecordsList prov zid rest).1,
       (processRecord prov zid item).2.1 ++ (processRecordsList prov zid rest).2.1,
       (processRecord prov zid item).2.2 :: (processRecordsList prov zid rest).2.2) := rfl

theorem buildRecords_none (pfxS : String) (st : CacheSt) :
    buildRecords pfxS none none st = [] := rfl

theorem buildRecords_some6 (pfxS a : String) (st : CacheSt) :
    buildRecords pfxS none (some a) st =
      [(st.ipv6_record, st.ipv6_record_address, ⟨"AAAA", pfxS, a⟩)] := rfl

theorem processRecord_entry (prov : Provider) (zid : Option Int)
    (item : Option Int × Option String × RecordPayload) :
    (processRecord prov zid item).2.2.zone_id = none ∧
    (processRecord prov zid item).2.2.type = some item.2.2.type := by
  rcases item with ⟨oid, addr, p⟩
  cases oid with
  | none => exact ⟨rfl, rfl⟩
  | some rid =>
    simp only [processRecord]
    by_cases hne : addr ≠ some p.data
    · rw [if_pos hne]
      exact ⟨rfl, rfl⟩
    · rw [if_neg hne]
      exact ⟨rfl, rfl⟩

theorem createZoneResults_truthy (st : CacheSt) (prov : Provider)
    (h : truthyZ st.zone_id = true) : createZoneResults st prov = [] := by
  unfold createZoneResults
  rw [if_pos h]

theorem createZoneCalls_truthy (z : String) (st : CacheSt) (cur4 cur6 : Option String)
    (h : truthyZ st.zone_id = true) : createZoneCalls z st cur4 cur6 = [] := by
  unfold createZoneCalls
  rw [if_pos h]

theorem createZoneResults_type (st : CacheSt) (prov : Provider) :
    ∀ j ∈ createZoneResults st prov, j.type = none := by
  intro j hj
  unfold createZoneResults at hj
  split at hj
  · cases hj
  · dsimp only at hj
    split at hj
    · simp only [List.mem_singleton] at hj
      subst hj
      rfl
    · cases hj

theorem mem_resolveZoneCalls (z : String) (st : CacheSt) (c : ApiCall)
    (h : c ∈ resolveZoneCalls z st) : c = ApiCall.getZones := by
  unfold resolveZoneCalls at h
  split at h
  · cases h
  · simpa using h

theorem mem_createZoneCalls (z : String) (st : CacheSt) (cur4 cur6 : Option String) (c : ApiCall)
    (h : c ∈ createZoneCalls z st cur4 cur6) :
    c = ApiCall.createZone z (if truthyS cur4 then cur4 else none)
          (if truthyS cur6 then cur6 else none) := by
  unfold createZoneCalls at h
  split at h
  · cases h
  · simpa using h

theorem mem_discCalls (st : CacheSt) (c : ApiCall) (h : c ∈ discCalls st) :
    c = ApiCall.listRecords st.zone_id := by
  unfold discCalls at h
  split at h
  · simpa using h
  · cases h

theorem scanStep_v6 (pfxS : String) (st st2 : CacheSt) (r : JObj)
    (h : scanStep pfxS st r = Except.ok st2) :
    (r.name = some pfxS ∧ r.type = some "AAAA" ∧ st2.ipv6_record = r.id ∧
      st2.ipv6_record_address = r.data) ∨
    (¬(r.name = some pfxS ∧ r.type = some "AAAA") ∧ st2.ipv6_record = st.ipv6_record ∧
      st2.ipv6_record_address = st.ipv6_record_address) := by
  unfold scanStep at h
  by_cases hn : r.name = some pfxS
  · rw [if_pos hn] at h
    by_cases hA : r.type = some "A"
    · rw [if_pos hA] at h
      have hne : ¬(r.name = some pfxS ∧ r.type = some "AAAA") := by
        rintro ⟨-, h6⟩
        rw [hA] at h6
        simp at h6
      cases hd : r.data with
      | none =>
        rw [hd] at h
        cases hi : r.id <;> rw [hi] at h <;> cases h
      | some d =>
        cases hi : r.id with
        | none => rw [hd, hi] at h; cases h
        | some i =>
          rw [hd, hi] at h
          injection h with h
          subst h
          exact Or.inr ⟨hne, rfl, rfl⟩
    · rw [if_neg hA] at h
      by_cases h6 : r.type = some "AAAA"
      · rw [if_pos h6] at h
        cases hd : r.data with
        | none =>
          rw [hd] at h
          cases hi : r.id <;> rw [hi] at h <;> cases h
        | some d =>
          cases hi : r.id with
          | none => rw [hd, hi] at h; cases h
          | some i =>
            rw [hd, hi] at h
            injection h with h
            subst h
            exact Or.inl ⟨hn, h6, by simp [hi], by simp [hd]⟩
      · rw [if_neg h6] at h
        injection h with h
        subst h
        exact Or.inr ⟨fun hc => h6 hc.2, rfl, rfl⟩
  · rw [if_neg hn] at h
    injection h with h
    subst h
    exact Or.inr ⟨fun hc => hn hc.1, rfl, rfl⟩

theorem scanRecords_v6 (pfxS : String) (recs : List JObj) :
    ∀ st st' : CacheSt, scanRecords pfxS st recs = Except.ok st' →
      (match specLastMatch pfxS "AAAA" recs with
       | none => st'.ipv6_record = st.ipv6_record ∧
                 st'.ipv6_record_address = st.ipv6_record_address
       | some j => st'.ipv6_record = j.id ∧ st'.ipv6_record_address = j.data) := by
  induction recs with
  | nil =>
    intro st st' h
    unfold scanRecords at h
    injection h with h
    subst h
    exact ⟨rfl, rfl⟩
  | cons r rs ih =>
    intro st st' h
    unfold scanRecords at h
    cases hs : scanStep pfxS st r with
    | error e => rw [hs] at h; cases h
    | ok st2 =>
      rw [hs] at h
      have IH := ih st2 st' h
      have HS := scanStep_v6 pfxS st st2 r hs
      show (match specLastMatch pfxS "AAAA" (r :: rs) with
       | none => st'.ipv6_record = st.ipv6_record ∧
                 st'.ipv6_record_address = st.ipv6_record_address
       | some j => st'.ipv6_record = j.id ∧ st'.ipv6_record_address = j.data)
      unfold specLastMatch
      cases hsl : specLastMatch pfxS "AAAA" rs with
      | some k =>
        rw [hsl] at IH
        exact IH
      | none =>
        rw [hsl] at IH
        rcases HS with ⟨hname, htype, h1, h2⟩ | ⟨hne, h1, h2⟩
        · rw [if_pos (And.intro hname htype)]
          exact ⟨IH.1.trans h1, IH.2.trans h2⟩
        · rw [if_neg hne]
          exact ⟨IH.1.trans h1, IH.2.trans h2⟩

theorem specLastMatch_mem (pfxS ty : String) (recs : List JObj) (j : JObj) :
    specLastMatch pfxS ty recs = some j →
      j ∈ recs ∧ j.name = some pfxS ∧ j.type = some ty := by
  induction recs with
  | nil => intro h; cases h
  | cons r rs ih =>
    intro h
    unfold specLastMatch at h
    cases hsl : specLastMatch pfxS ty rs with
    | some k =>
      rw [hsl] at h
      rw [Option.some.injEq] at h
      subst h
      have hk := ih hsl
      exact ⟨List.mem_cons_of_mem _ hk.1, hk.2⟩
    | none =>
      rw [hsl] at h
      by_cases hc : r.name = some pfxS ∧ r.type = some ty
      · rw [if_pos hc] at h
        rw [Option.some.injEq] at h
        subst h
        exact ⟨List.mem_cons_self _ _, hc⟩
      · rw [if_neg hc] at h
        cases h

theorem scanStep_v4 (pfxS : String) (st st2 : CacheSt) (r : JObj)
    (h : scanStep pfxS st r = Except.ok st2) :
    (r.name = some pfxS ∧ r.type = some "A" ∧ st2.ipv4_record = r.id ∧
      st2.ipv4_record_address = r.data) ∨
    (¬(r.name = some pfxS ∧ r.type = some "A") ∧ st2.ipv4_record = st.ipv4_record ∧
      st2.ipv4_record_address = st.ipv4_record_address) := by
  unfold scanStep at h
  by_cases hn : r.name = some pfxS
  · rw [if_pos hn] at h
    by_cases hA : r.type = some "A"
    · rw [if_pos hA] at h
      cases hd : r.data with
      | none =>
        rw [hd] at h
        cases hi : r.id <;> rw [hi] at h <;> cases h
      | some d =>
        cases hi : r.id with
        | none => rw [hd, hi] at h; cases h
        | some i =>
          rw [hd, hi] at h
          injection h with h
          subst h
          exact Or.inl ⟨hn, hA, by simp [hi], by simp [hd]⟩
    · rw [if_neg hA] at h
      have hne : ¬(r.name = some pfxS ∧ r.type = some "A") := fun hc => hA hc.2
      by_cases h6 : r.type = some "AAAA"
      · rw [if_pos h6] at h
        cases hd : r.data with
        | none =>
          rw [hd] at h
          cases hi : r.id <;> rw [hi] at h <;> cases h
        | some d =>
          cases hi : r.id with
          | none => rw [hd, hi] at h; cases h
          | some i =>
            rw [hd, hi] at h
            injection h with h
            subst h
            exact Or.inr ⟨hne, rfl, rfl⟩
      · rw [if_neg h6] at h
        injection h with h
        subst h
        exact Or.inr ⟨hne, rfl, rfl⟩
  · rw [if_neg hn] at h
    injection h with h
    subst h
    exact Or.inr ⟨fun hc => hn hc.1, rfl, rfl⟩

theorem scanRecords_v4 (pfxS : String) (recs : List JObj) :
    ∀ st st' : CacheSt, scanRecords pfxS st recs = Except.ok st' →
      (match specLastMatch pfxS "A" recs with
       | none => st'.ipv4_record = st.ipv4_record ∧
                 st'.ipv4_record_address = st.ipv4_record_address
       | some j => st'.ipv4_record = j.id ∧ st'.ipv4_record_address = j.data) := by
  induction recs with
  | nil =>
    intro st st' h
    unfold scanRecords at h
    injection h with h
    subst h
    exact ⟨rfl, rfl⟩
  | cons r rs ih =>
    intro st st' h
    unfold scanRecords at h
    cases hs : scanStep pfxS st r with
    | error e => rw [hs] at h; cases h
    | ok st2 =>
      rw [hs] at h
      have IH := ih st2 st' h
      have HS := scanStep_v4 pfxS st st2 r hs
      show (match specLastMatch pfxS "A" (r :: rs) with
       | none => st'.ipv4_record = st.ipv4_record ∧
                 st'.ipv4_record_address = st.ipv4_record_address
       | some j => st'.ipv4_record = j.id ∧ st'.ipv4_record_address = j.data)
      unfold specLastMatch
      cases hsl : specLastMatch pfxS "A" rs with
      | some k =>
        rw [hsl] at IH
        exact IH
      | none =>
        rw [hsl] at IH
        rcases HS with ⟨hname, htype, h1, h2⟩ | ⟨hne, h1, h2⟩
        · rw [if_pos (And.intro hname htype)]
          exact ⟨IH.1.trans h1, IH.2.trans h2⟩
        · rw [if_neg hne]
          exact ⟨IH.1.trans h1, IH.2.trans h2⟩

theorem loadCacheStep_eraseName (st : CacheSt) (r : JObj) :
    loadCacheStep st (eraseName r) = loadCacheStep st r := rfl

theorem loadCache_eraseName (es : List JObj) : ∀ st : CacheSt,
    loadCache st (es.map eraseName) = loadCache st es := by
  induction es with
  | nil => intro st; rfl
  | cons r rs ih =>
    intro st
    show loadCache st (eraseName r :: rs.map eraseName) = loadCache st (r :: rs)
    unfold loadCache
    rw [loadCacheStep_eraseName]
    cases h2 : loadCacheStep st r with
    | ok st2 => exact ih st2
    | error e => rfl

/-! The claim theorems. -/

/-- Claim C2 counterexample: with cached record id 7 at address "old" and
discovered address "new", a failing update (response without an id) is
reported, but the persisted snapshot entry for the family is the payload
`{type, name, data := "new"}` with no id at all — not the pre-run cached
record (id 7, address "old") the claim requires. -/
theorem claimC2_counterexample :
    inpC2.cache = some
      [{ type := some "AAAA", name := some "home", data := some "old", id := some 7 }] ∧
    inpC2.current_ipv6 = some "new" ∧
    (runMain inpC2).errors = [ErrReport.updateFailed 7] ∧
    (runMain inpC2).persisted =
      some [{ type := some "AAAA", name := some "home", data := some "new" }] := by
  decide

/-- Claim C3 counterexample: neither family has a current address (IPv6
discovery failed, IPv4 is disabled), yet the run still issues the
listRecords discovery query, because the code gates it only on both cached
record ids being absent. -/
theorem claimC3_counterexample :
    inpC3x.current_ipv6 = none ∧ inpC3x.cache = none ∧
    (runMain inpC3x).calls = [ApiCall.listRecords (some 5)] := by
  decide

/-- Claim C4 counterexample: the only cached record is named "other", not
the requested "home", yet its id 5 and address "d" are adopted as the
effective cached record and an update is sent to record 5 — the cache
loader never looks at the cached `name`. -/
theorem claimC4_counterexample :
    inpC4x.pfx = some "home" ∧
    inpC4x.cache = some
      [{ type := some "AAAA", name := some "other", data := some "d", id := some 5 }] ∧
    (runMain inpC4x).eff6 = (some 5, some "d") ∧
    (runMain inpC4x).calls = [ApiCall.updateRecord (some 5) 5 ⟨"AAAA", "home", "new"⟩] := by
  decide

/-- Claim C4 amended: the cache loader never consults a cached record's
`name` field at all — erasing every cached name leaves the whole run
unchanged, so records are selected by their `type` alone and a record whose
name differs from the requested one is used all the same. -/
theorem claimC4_amended (inp : Inputs) :
    runMain { inp with cache := Option.map (List.map eraseName) inp.cache } = runMain inp := by
  unfold runMain
  cases hz : inp.zone with
  | none => simp [hz]
  | some z =>
    simp only [hz]
    unfold cacheLoad
    cases hc : inp.cache with
    | none => simp [hc]
    | some es =>
      simp only [hc, Option.map_some']
      rw [loadCache_eraseName]

/-- Claim C5 counterexample: cached record id 7 with address equal to the
discovered one — no API call is made, but the persisted entry is the bare
payload without the id, not the cached record verbatim, so the snapshot
entry differs from the prior run's. -/
theorem claimC5_counterexample :
    inpC5.cache = some
      [{ type := some "AAAA", name := some "home", data := some "x", id := some 7 }] ∧
    inpC5.current_ipv6 = some "x" ∧
    (runMain inpC5).calls = [] ∧
    (runMain inpC5).persisted =
      some [{ type := some "AAAA", name := some "home", data := some "x" }] := by
  decide

/-- Claim C6 counterexample: zone "zz" is not numeric and matches no
provider zone, yet the run does not fail: it registers a new zone and then
proceeds to create a record in it. -/
theorem claimC6_counterexample :
    inpC6x.provider.zonesResp = [] ∧ pyInt? "zz" = none ∧
    (runMain inpC6x).aborted = none ∧
    (runMain inpC6x).calls =
      [ApiCall.getZones, ApiCall.createZone "zz" none (some "x"),
       ApiCall.listRecords (some 42), ApiCall.createRecord (some 42) ⟨"AAAA", "home", "x"⟩] := by
  decide

/-- Claim C7 counterexample: the cache holds an IPv6 record, IPv6 discovery
fails this run, and the persisted snapshot is empty — the previously cached
record is dropped, not carried forward. -/
theorem claimC7_counterexample :
    inpC7.current_ipv6 = none ∧
    inpC7.cache = some
      [{ type := some "AAAA", name := some "home", data := some "x", id := some 7 }] ∧
    (runMain inpC7).aborted = none ∧ (runMain inpC7).persisted = some [] := by
  decide

/-- Claim C8 counterexample: the provider returns two records matching name
"home" and type AAAA, the first with id 1, and the run adopts id 2 — the
last match wins, not the first. -/
theorem claimC8_counterexample :
    recsC8.head? = some { name := some "home", type := some "AAAA", data := some "d1", id := some 1 } ∧
    (runMain inpC8).aborted = none ∧
    (runMain inpC8).eff6 = (some 2, some "d2") := by
  decide

/-- Claim C8 amended: when the discovery scan over the listRecords response
completes, the effective cached record of each family is the last
provider-returned entry whose name equals the requested record name and
whose type matches the family (earlier matches are overwritten); with no
such entry the cached values are kept. -/
theorem claimC8_amended (pfxS : String) (recs : List JObj) (st st' : CacheSt)
    (h : scanRecords pfxS st recs = Except.ok st') :
    (match specLastMatch pfxS "AAAA" recs with
     | none => st'.ipv6_record = st.ipv6_record ∧
               st'.ipv6_record_address = st.ipv6_record_address
     | some j => st'.ipv6_record = j.id ∧ st'.ipv6_record_address = j.data) ∧
    (match specLastMatch pfxS "A" recs with
     | none => st'.ipv4_record = st.ipv4_record ∧
               st'.ipv4_record_address = st.ipv4_record_address
     | some j => st'.ipv4_record = j.id ∧ st'.ipv4_record_address = j.data) :=
  ⟨scanRecords_v6 pfxS recs st st' h, scanRecords_v4 pfxS recs st st' h⟩

/-- Claim C8 witness: the amended theorem applied to the two-match record
list of the counterexample input. -/
theorem claimC8_witness :
    scanRecords "home" {} recsC8 = Except.ok
      { ipv6_record := some 2, ipv6_record_address := some "d2" } ∧
    (match specLastMatch "home" "AAAA" recsC8 with
     | none => (({ ipv6_record := some 2, ipv6_record_address := some "d2" } : CacheSt)).ipv6_record =
                 ({} : CacheSt).ipv6_record ∧
               (({ ipv6_record := some 2, ipv6_record_address := some "d2" } : CacheSt)).ipv6_record_address =
                 ({} : CacheSt).ipv6_record_address
     | some j => (({ ipv6_record := some 2, ipv6_record_address := some "d2" } : CacheSt)).ipv6_record = j.id ∧
                 (({ ipv6_record := some 2, ipv6_record_address := some "d2" } : CacheSt)).ipv6_record_address = j.data) ∧
    (match specLastMatch "home" "A" recsC8 with
     | none => (({ ipv6_record := some 2, ipv6_record_address := some "d2" } : CacheSt)).ipv4_record =
                 ({} : CacheSt).ipv4_record ∧
               (({ ipv6_record := some 2, ipv6_record_address := some "d2" } : CacheSt)).ipv4_record_address =
                 ({} : CacheSt).ipv4_record_address
     | some j => (({ ipv6_record := some 2, ipv6_record_address := some "d2" } : CacheSt)).ipv4_record = j.id ∧
                 (({ ipv6_record := some 2, ipv6_record_address := some "d2" } : CacheSt)).ipv4_record_address = j.data) := by
  refine ⟨rfl, ?_, ?_⟩
  · exact (claimC8_amended "home" recsC8 {}
      { ipv6_record := some 2, ipv6_record_address := some "d2" } rfl).1
  · exact (claimC8_amended "home" recsC8 {}
      { ipv6_record := some 2, ipv6_record_address := some "d2" } rfl).2

/-- Claim C9 counterexample: a run whose zone id came from the argument
performs no zone call and reaches the persist step, but the persisted
snapshot contains only the record entry and no zone identity at all. -/
theorem claimC9_counterexample :
    (runMain inpC9x).aborted = none ∧
    (runMain inpC9x).persisted =
      some [{ type := some "AAAA", name := some "home", data := some "x" }] ∧
    ({ type := some "AAAA", name := some "home", data := some "x" } : JObj).zone_id = none := by
  decide

theorem baseCalls_filter (z : String) (st1 stb stc : CacheSt) (cur6 : Option String)
    (p : ApiCall → Bool) (h1 : p ApiCall.getZones = false)
    (h2 : ∀ n a4 a6, p (ApiCall.createZone n a4 a6) = false)
    (h3 : ∀ zo, p (ApiCall.listRecords zo) = false) (l : List ApiCall) :
    ((resolveZoneCalls z st1 ++ createZoneCalls z stb none cur6) ++
      (discCalls stc ++ l)).filter p = l.filter p := by
  rw [List.filter_append, List.filter_append, List.filter_append,
    resolveZoneCalls_filter _ _ _ h1, createZoneCalls_filter _ _ _ _ _ h2,
    discCalls_filter _ _ h3]
  rfl

/-- Claim C1: on a completed record-name run with a discovered IPv6
address, the apply loop acts as claimed for the family: with no effective
cached record id, exactly one createRecord is issued with payload
`{type := AAAA, name := the record name, data := the current address}`;
with an id and an equal cached address, no record call carrying the
family's type is made; with an id and a different cached address, exactly
one updateRecord is issued to that id with the same payload.  (IPv4 never
has a current address in the committed source, so the IPv6 family is the
only live instance; record creates/updates are the calls "for" a family.) -/
theorem claimC1 (inp : Inputs) (z : String) (st1 : CacheSt) (a : String)
    (hz : inp.zone = some z) (hc : cacheLoad z inp.cache = Except.ok st1)
    (hp : truthyS inp.pfx = true) (ha : inp.current_ipv6 = some a)
    (hok : (runMain inp).aborted = none) :
    ((runMain inp).eff6.1 = none →
      (runMain inp).calls.filter ApiCall.isCreate =
        [ApiCall.createRecord (runMain inp).zid ⟨"AAAA", inp.pfx.getD "", a⟩] ∧
      (runMain inp).calls.filter ApiCall.isUpdate = []) ∧
    (∀ rid : Int, (runMain inp).eff6.1 = some rid → (runMain inp).eff6.2 = some a →
      (runMain inp).calls.filter (ApiCall.refersType "AAAA") = []) ∧
    (∀ rid : Int, (runMain inp).eff6.1 = some rid → (runMain inp).eff6.2 ≠ some a →
      (runMain inp).calls.filter ApiCall.isUpdate =
        [ApiCall.updateRecord (runMain inp).zid rid ⟨"AAAA", inp.pfx.getD "", a⟩] ∧
      (runMain inp).calls.filter ApiCall.isCreate = []) := by
  rw [runMain_eq_record inp z st1 hz hc hp] at hok ⊢
  cases hE : effSt (inp.pfx.getD "") (st3of z st1 inp.provider) inp.provider with
  | error e =>
    rw [recordBranch_err z st1 inp.pfx inp.current_ipv6 inp.provider e hp hE] at hok
    simp at hok
  | ok st4 =>
    rw [recordBranch_ok z st1 inp.pfx inp.current_ipv6 inp.provider st4 hp hE]
    rw [ha]
    dsimp only
    rw [buildRecords_some6]
    refine ⟨?_, ?_, ?_⟩
    · intro h6
      rw [h6, processRecordsList_cons, processRecordsList_nil]
      simp only [processRecord]
      refine ⟨?_, ?_⟩ <;>
        simp [List.filter_append, resolveZoneCalls_filter, createZoneCalls_filter,
          discCalls_filter, ApiCall.isCreate, ApiCall.isUpdate, List.filter]
    · intro rid h6 haddr
      rw [h6, haddr, processRecordsList_cons, processRecordsList_nil]
      simp only [processRecord]
      rw [if_neg (by simp)]
      simp [List.filter_append, resolveZoneCalls_filter, createZoneCalls_filter,
        discCalls_filter, ApiCall.refersType, List.filter]
    · intro rid h6 hne
      rw [h6, processRecordsList_cons, processRecordsList_nil]
      simp only [processRecord]
      rw [if_pos hne]
      refine ⟨?_, ?_⟩ <;>
        simp [List.filter_append, resolveZoneCalls_filter, createZoneCalls_filter,
          discCalls_filter, ApiCall.isCreate, ApiCall.isUpdate, List.filter]

/-- Claim C1 witness: the create case of the theorem at a concrete fresh
run, with every hypothesis discharged. -/
theorem claimC1_witness :
    inpC1w.zone = some "5" ∧
    cacheLoad "5" inpC1w.cache = Except.ok { zone_id := some 5 } ∧
    truthyS inpC1w.pfx = true ∧
    inpC1w.current_ipv6 = some "x" ∧
    (runMain inpC1w).aborted = none ∧
    (((runMain inpC1w).eff6.1 = none →
      (runMain inpC1w).calls.filter ApiCall.isCreate =
        [ApiCall.createRecord (runMain inpC1w).zid ⟨"AAAA", inpC1w.pfx.getD "", "x"⟩] ∧
      (runMain inpC1w).calls.filter ApiCall.isUpdate = []) ∧
    (∀ rid : Int, (runMain inpC1w).eff6.1 = some rid → (runMain inpC1w).eff6.2 = some "x" →
      (runMain inpC1w).calls.filter (ApiCall.refersType "AAAA") = []) ∧
    (∀ rid : Int, (runMain inpC1w).eff6.1 = some rid → (runMain inpC1w).eff6.2 ≠ some "x" →
      (runMain inpC1w).calls.filter ApiCall.isUpdate =
        [ApiCall.updateRecord (runMain inpC1w).zid rid ⟨"AAAA", inpC1w.pfx.getD "", "x"⟩] ∧
      (runMain inpC1w).calls.filter ApiCall.isCreate = [])) :=
  ⟨rfl, rfl, by decide, rfl, by decide,
   claimC1 inpC1w "5" { zone_id := some 5 } "x" rfl rfl (by decide) rfl (by decide)⟩

theorem createZoneResults_filter6 (st : CacheSt) (prov : Provider) :
    (createZoneResults st prov).filter (fun j => j.type == some "AAAA") = [] := by
  rw [List.filter_eq_nil_iff]
  intro j hj
  rw [createZoneResults_type st prov j hj]
  simp

/-- Claim C2 amended: on a completed record-name run whose IPv6 update
fails (falsy response id), the failure is reported, and the persisted
snapshot entry for the family is the update payload — type, name and the
newly discovered address — with no record id; the pre-run cached id and
previously known address are not retained. -/
theorem claimC2_amended (inp : Inputs) (z : String) (st1 : CacheSt) (a : String) (rid : Int)
    (hz : inp.zone = some z) (hc : cacheLoad z inp.cache = Except.ok st1)
    (hp : truthyS inp.pfx = true) (ha : inp.current_ipv6 = some a)
    (h6 : (runMain inp).eff6.1 = some rid) (hne : (runMain inp).eff6.2 ≠ some a)
    (hfail : truthyZ (inp.provider.updateRecordResp rid ⟨"AAAA", inp.pfx.getD "", a⟩).id = false) :
    (runMain inp).errors = [ErrReport.updateFailed rid] ∧
    (∀ l, (runMain inp).persisted = some l →
      l.filter (fun j => j.type == some "AAAA") =
        [{ type := some "AAAA", name := some (inp.pfx.getD ""), data := some a }]) := by
  rw [runMain_eq_record inp z st1 hz hc hp] at h6 hne ⊢
  cases hE : effSt (inp.pfx.getD "") (st3of z st1 inp.provider) inp.provider with
  | error e =>
    rw [recordBranch_err z st1 inp.pfx inp.current_ipv6 inp.provider e hp hE] at h6
    simp at h6
  | ok st4 =>
    rw [recordBranch_ok z st1 inp.pfx inp.current_ipv6 inp.provider st4 hp hE] at h6 hne ⊢
    dsimp only at h6 hne ⊢
    rw [ha, buildRecords_some6, h6, processRecordsList_cons, processRecordsList_nil]
    simp only [processRecord]
    rw [if_pos hne]
    dsimp only
    constructor
    · rw [if_neg (by simp [hfail])]
      rfl
    · intro l hl
      rw [Option.some.injEq] at hl
      subst hl
      rw [List.filter_append, createZoneResults_filter6]
      rfl

/-- Claim C2 witness: the amended theorem at the concrete failing-update
run of the counterexample, with every hypothesis discharged. -/
theorem claimC2_witness :
    inpC2.zone = some "5" ∧
    cacheLoad "5" inpC2.cache = Except.ok
      { zone_id := some 5, ipv6_record := some 7, ipv6_record_address := some "old" } ∧
    truthyS inpC2.pfx = true ∧
    inpC2.current_ipv6 = some "new" ∧
    (runMain inpC2).eff6.1 = some 7 ∧
    ¬ (runMain inpC2).eff6.2 = some "new" ∧
    truthyZ (inpC2.provider.updateRecordResp 7 ⟨"AAAA", inpC2.pfx.getD "", "new"⟩).id = false ∧
    ((runMain inpC2).errors = [ErrReport.updateFailed 7] ∧
     (∀ l, (runMain inpC2).persisted = some l →
       l.filter (fun j => j.type == some "AAAA") =
         [{ type := some "AAAA", name := some (inpC2.pfx.getD ""), data := some "new" }])) :=
  ⟨rfl, rfl, by decide, rfl, by decide, by decide, by decide,
   claimC2_amended inpC2 "5"
     { zone_id := some 5, ipv6_record := some 7, ipv6_record_address := some "old" }
     "new" 7 rfl rfl (by decide) rfl (by decide) (by decide) (by decide)⟩

/-- Claim C5 amended: with an effective cached id and a cached address
equal to the discovered one, no record call carrying the family's type is
made, but the persisted entry for the family is rebuilt as
`{type, name, data := current address}` without the cached record id, so
the snapshot entry is not the cached record verbatim. -/
theorem claimC5_amended (inp : Inputs) (z : String) (st1 : CacheSt) (a : String) (rid : Int)
    (hz : inp.zone = some z) (hc : cacheLoad z inp.cache = Except.ok st1)
    (hp : truthyS inp.pfx = true) (ha : inp.current_ipv6 = some a)
    (h6 : (runMain inp).eff6.1 = some rid) (heq : (runMain inp).eff6.2 = some a) :
    (runMain inp).calls.filter (ApiCall.refersType "AAAA") = [] ∧
    (∀ l, (runMain inp).persisted = some l →
      l.filter (fun j => j.type == some "AAAA") =
        [{ type := some "AAAA", name := some (inp.pfx.getD ""), data := some a }]) := by
  rw [runMain_eq_record inp z st1 hz hc hp] at h6 heq ⊢
  cases hE : effSt (inp.pfx.getD "") (st3of z st1 inp.provider) inp.provider with
  | error e =>
    rw [recordBranch_err z st1 inp.pfx inp.current_ipv6 inp.provider e hp hE] at h6
    simp at h6
  | ok st4 =>
    rw [recordBranch_ok z st1 inp.pfx inp.current_ipv6 inp.provider st4 hp hE] at h6 heq ⊢
    dsimp only at h6 heq ⊢
    rw [ha, buildRecords_some6, h6, heq, processRecordsList_cons, processRecordsList_nil]
    simp only [processRecord]
    rw [if_neg (by simp)]
    constructor
    · simp [List.filter_append, resolveZoneCalls_filter, createZoneCalls_filter,
        discCalls_filter, ApiCall.refersType, List.filter]
    · intro l hl
      rw [Option.some.injEq] at hl
      subst hl
      rw [List.filter_append, createZoneResults_filter6]
      rfl

/-- Claim C5 witness: the amended theorem at the concrete unchanged-address
run of the counterexample, with every hypothesis discharged. -/
theorem claimC5_witness :
    inpC5.zone = some "7" ∧
    cacheLoad "7" inpC5.cache = Except.ok
      { zone_id := some 7, ipv6_record := some 7, ipv6_record_address := some "x" } ∧
    truthyS inpC5.pfx = true ∧
    inpC5.current_ipv6 = some "x" ∧
    (runMain inpC5).eff6.1 = some 7 ∧
    (runMain inpC5).eff6.2 = some "x" ∧
    ((runMain inpC5).calls.filter (ApiCall.refersType "AAAA") = [] ∧
     (∀ l, (runMain inpC5).persisted = some l →
       l.filter (fun j => j.type == some "AAAA") =
         [{ type := some "AAAA", name := some (inpC5.pfx.getD ""), data := some "x" }])) :=
  ⟨rfl, rfl, by decide, rfl, by decide, by decide,
   claimC5_amended inpC5 "7"
     { zone_id := some 7, ipv6_record := some 7, ipv6_record_address := some "x" }
     "x" 7 rfl rfl (by decide) rfl (by decide) (by decide)⟩

theorem zoneApexRun_mismatch (calls0 : List ApiCall) (st : CacheSt) (cur6 : Option String)
    (prov : Provider) (i : Int)
    (hcur : truthyS cur6 = true) (hdiff : st.zone_ipv6 ≠ cur6)
    (hresp : prov.updateZoneResp.id = some i) (hne : i ≠ st.zone_id.getD 0) :
    zoneApexRun calls0 st none cur6 prov =
      { calls := calls0 ++ [ApiCall.updateZone (st.zone_id.getD 0) none cur6],
        aborted := some AbortKind.zoneIdAssert, zid := some (st.zone_id.getD 0) } := by
  have hsome : cur6.isSome = true := by
    cases hcv : cur6 with
    | none => rw [hcv] at hcur; simp [truthyS] at hcur
    | some s => rfl
  unfold zoneApexRun
  dsimp only
  rw [ite_self]
  rw [if_pos (And.intro hcur hdiff)]
  rw [if_pos (Or.inr hsome)]
  rw [hresp]
  dsimp only
  rw [if_neg hne]

/-- Claim C10: on the zone-apex path (no record name, truthy zone id, the
discovered IPv6 address is truthy and differs from the cached zone
address), a zone-update response whose id differs from the target zone id
makes the run abort on the assertion before the snapshot write, so nothing
is persisted; the analogous id mismatch on the record-update path only
produces an error report and the run still persists. -/
theorem claimC10 (inp : Inputs) (z : String) (st1 : CacheSt) (i rid nres : Int) (a : String) :
    (inp.zone = some z → cacheLoad z inp.cache = Except.ok st1 →
      truthyS inp.pfx = false →
      truthyZ (st2of z st1 inp.provider).zone_id = true →
      truthyS inp.current_ipv6 = true →
      (st2of z st1 inp.provider).zone_ipv6 ≠ inp.current_ipv6 →
      inp.provider.updateZoneResp.id = some i →
      i ≠ (st2of z st1 inp.provider).zone_id.getD 0 →
      (runMain inp).aborted = some AbortKind.zoneIdAssert ∧ (runMain inp).persisted = none) ∧
    (inp.zone = some z → cacheLoad z inp.cache = Except.ok st1 →
      truthyS inp.pfx = true → inp.current_ipv6 = some a →
      (runMain inp).eff6.1 = some rid → (runMain inp).eff6.2 ≠ some a →
      (inp.provider.updateRecordResp rid ⟨"AAAA", inp.pfx.getD "", a⟩).id = some nres →
      nres ≠ 0 → nres ≠ rid →
      (runMain inp).errors = [ErrReport.updateMismatch rid nres] ∧
      (runMain inp).persisted.isSome = true) := by
  constructor
  · intro hz hc hp hzid hcur hdiff hresp hne
    rw [runMain_eq_apex inp z st1 hz hc hp hzid]
    rw [zoneApexRun_mismatch _ _ _ _ i hcur hdiff hresp hne]
    exact ⟨rfl, rfl⟩
  · intro hz hc hp ha h6 hne hresp hn0 hnrid
    rw [runMain_eq_record inp z st1 hz hc hp] at h6 hne ⊢
    cases hE : effSt (inp.pfx.getD "") (st3of z st1 inp.provider) inp.provider with
    | error e =>
      rw [recordBranch_err z st1 inp.pfx inp.current_ipv6 inp.provider e hp hE] at h6
      simp at h6
    | ok st4 =>
      rw [recordBranch_ok z st1 inp.pfx inp.current_ipv6 inp.provider st4 hp hE] at h6 hne ⊢
      dsimp only at h6 hne ⊢
      rw [ha, buildRecords_some6, h6, processRecordsList_cons, processRecordsList_nil]
      simp only [processRecord]
      rw [if_pos hne]
      dsimp only
      constructor
      · rw [hresp]
        rw [if_pos (by simp [truthyZ, hn0])]
        rw [if_neg (by simp [hnrid])]
        rfl
      · rfl

/-- Claim C10 witness: both conjuncts applied at concrete runs — a
zone-apex run whose update response echoes id 6 for zone 5, and a record
run whose update response echoes id 9 for record 7. -/
theorem claimC10_witness :
    ((runMain inpC10a).aborted = some AbortKind.zoneIdAssert ∧
     (runMain inpC10a).persisted = none) ∧
    ((runMain inpC10b).errors = [ErrReport.updateMismatch 7 9] ∧
     (runMain inpC10b).persisted.isSome = true) :=
  ⟨(claimC10 inpC10a "5" { zone_id := some 5 } 6 0 0 "x").1 rfl rfl (by decide) (by decide)
     (by decide) (by decide) rfl (by decide),
   (claimC10 inpC10b "5"
      { zone_id := some 5, ipv6_record := some 7, ipv6_record_address := some "old" }
      0 7 9 "new").2 rfl rfl (by decide) rfl (by decide) (by decide) rfl
     (by decide) (by decide)⟩

theorem resolveZoneSt_records (z : String) (st : CacheSt) (zones : List JObj) :
    (resolveZoneSt z st zones).ipv4_record = st.ipv4_record ∧
    (resolveZoneSt z st zones).ipv6_record = st.ipv6_record ∧
    (resolveZoneSt z st zones).ipv4_record_address = st.ipv4_record_address ∧
    (resolveZoneSt z st zones).ipv6_record_address = st.ipv6_record_address := by
  unfold resolveZoneSt
  split
  · exact ⟨rfl, rfl, rfl, rfl⟩
  · exact ⟨rfl, rfl, rfl, rfl⟩

theorem createZoneSt_records (st : CacheSt) (prov : Provider) :
    (createZoneSt st prov).ipv4_record = st.ipv4_record ∧
    (createZoneSt st prov).ipv6_record = st.ipv6_record ∧
    (createZoneSt st prov).ipv4_record_address = st.ipv4_record_address ∧
    (createZoneSt st prov).ipv6_record_address = st.ipv6_record_address := by
  unfold createZoneSt
  split
  · exact ⟨rfl, rfl, rfl, rfl⟩
  · dsimp only
    split <;> exact ⟨rfl, rfl, rfl, rfl⟩

theorem st3of_records (z : String) (st1 : CacheSt) (prov : Provider) :
    (st3of z st1 prov).ipv4_record = st1.ipv4_record ∧
    (st3of z st1 prov).ipv6_record = st1.ipv6_record ∧
    (st3of z st1 prov).ipv4_record_address = st1.ipv4_record_address ∧
    (st3of z st1 prov).ipv6_record_address = st1.ipv6_record_address := by
  have h2 := resolveZoneSt_records z st1 prov.zonesResp
  have h3 := createZoneSt_records (st2of z st1 prov) prov
  exact ⟨h3.1.trans h2.1, h3.2.1.trans h2.2.1, h3.2.2.1.trans h2.2.2.1,
    h3.2.2.2.trans h2.2.2.2⟩

theorem processRecord_calls_isList (prov : Provider) (zid : Option Int)
    (item : Option Int × Option String × RecordPayload) :
    (processRecord prov zid item).1.filter ApiCall.isList = [] := by
  rcases item with ⟨oid, addr, p⟩
  cases oid with
  | none => rfl
  | some rid =>
    simp only [processRecord]
    by_cases hne : addr ≠ some p.data
    · rw [if_pos hne]; rfl
    · rw [if_neg hne]; rfl

theorem processRecordsList_filter_isList (prov : Provider) (zid : Option Int)
    (items : List (Option Int × Option String × RecordPayload)) :
    ((processRecordsList prov zid items).1).filter ApiCall.isList = [] := by
  induction items with
  | nil => rfl
  | cons item rest ih =>
    rw [processRecordsList_cons]
    dsimp only
    rw [List.filter_append, ih, processRecord_calls_isList]
    rfl

/-- Claim C3 amended: on a completed record-name run, the listRecords
discovery query is issued exactly when both families' cached record ids
are absent (regardless of whether any current address was discovered), and
whatever effective cached record is then adopted for the IPv6 family comes
from a response entry whose name equals the record name and whose type is
AAAA. -/
theorem claimC3_amended (inp : Inputs) (z : String) (st1 : CacheSt)
    (hz : inp.zone = some z) (hc : cacheLoad z inp.cache = Except.ok st1)
    (hp : truthyS inp.pfx = true) (hok : (runMain inp).aborted = none) :
    ((runMain inp).calls.filter ApiCall.isList).length =
      (if st1.ipv4_record = none ∧ st1.ipv6_record = none then 1 else 0) ∧
    (st1.ipv4_record = none → st1.ipv6_record = none →
      ∀ rid : Int, (runMain inp).eff6.1 = some rid →
        ∃ j ∈ inp.provider.recordsResp, j.name = some (inp.pfx.getD "") ∧
          j.type = some "AAAA" ∧ j.id = some rid ∧ j.data = (runMain inp).eff6.2) := by
  rw [runMain_eq_record inp z st1 hz hc hp] at hok ⊢
  have hrec := st3of_records z st1 inp.provider
  cases hE : effSt (inp.pfx.getD "") (st3of z st1 inp.provider) inp.provider with
  | error e =>
    rw [recordBranch_err z st1 inp.pfx inp.current_ipv6 inp.provider e hp hE] at hok
    simp at hok
  | ok st4 =>
    rw [recordBranch_ok z st1 inp.pfx inp.current_ipv6 inp.provider st4 hp hE]
    dsimp only
    constructor
    · by_cases hsc : st1.ipv4_record = none ∧ st1.ipv6_record = none
      · rw [if_pos hsc]
        have hd : discCalls (st3of z st1 inp.provider) =
            [ApiCall.listRecords (st3of z st1 inp.provider).zone_id] := by
          unfold discCalls
          rw [if_pos ⟨hrec.1.trans hsc.1, hrec.2.1.trans hsc.2⟩]
        rw [hd]
        simp [List.filter_append, resolveZoneCalls_filter, createZoneCalls_filter,
          processRecordsList_filter_isList, ApiCall.isList, List.filter]
      · rw [if_neg hsc]
        have hd : discCalls (st3of z st1 inp.provider) = [] := by
          unfold discCalls
          rw [if_neg (fun hcon => hsc ⟨hrec.1.symm.trans hcon.1, hrec.2.1.symm.trans hcon.2⟩)]
        rw [hd]
        simp [List.filter_append, resolveZoneCalls_filter, createZoneCalls_filter,
          processRecordsList_filter_isList, ApiCall.isList, List.filter]
    · intro hp4 hp6 rid h6
      have hscan : scanRecords (inp.pfx.getD "") (st3of z st1 inp.provider)
          inp.provider.recordsResp = Except.ok st4 := by
        unfold effSt at hE
        rw [if_pos ⟨hrec.1.trans hp4, hrec.2.1.trans hp6⟩] at hE
        exact hE
      have hchar := scanRecords_v6 (inp.pfx.getD "") inp.provider.recordsResp
        (st3of z st1 inp.provider) st4 hscan
      cases hsl : specLastMatch (inp.pfx.getD "") "AAAA" inp.provider.recordsResp with
      | none =>
        rw [hsl] at hchar
        exfalso
        have : (some rid : Option Int) = none := by
          rw [← h6, hchar.1, hrec.2.1, hp6]
        cases this
      | some j =>
        rw [hsl] at hchar
        have hmem := specLastMatch_mem _ _ _ _ hsl
        exact ⟨j, hmem.1, hmem.2.1, hmem.2.2, hchar.1.symm.trans h6, hchar.2.symm⟩

/-- Claim C3 witness: a fresh-cache run where discovery runs and adopts the
provider's matching record, with every hypothesis discharged. -/
theorem claimC3_witness :
    inpC3w.zone = some "5" ∧
    cacheLoad "5" inpC3w.cache = Except.ok { zone_id := some 5 } ∧
    truthyS inpC3w.pfx = true ∧
    (runMain inpC3w).aborted = none ∧
    (((runMain inpC3w).calls.filter ApiCall.isList).length =
      (if ({ zone_id := some 5 } : CacheSt).ipv4_record = none ∧
          ({ zone_id := some 5 } : CacheSt).ipv6_record = none then 1 else 0) ∧
     (({ zone_id := some 5 } : CacheSt).ipv4_record = none →
      ({ zone_id := some 5 } : CacheSt).ipv6_record = none →
      ∀ rid : Int, (runMain inpC3w).eff6.1 = some rid →
        ∃ j ∈ inpC3w.provider.recordsResp, j.name = some (inpC3w.pfx.getD "") ∧
          j.type = some "AAAA" ∧ j.id = some rid ∧ j.data = (runMain inpC3w).eff6.2)) :=
  ⟨rfl, rfl, by decide, by decide,
   claimC3_amended inpC3w "5" { zone_id := some 5 } rfl rfl (by decide) (by decide)⟩

theorem get_zone_nomatch (domain : String) (zones : List JObj)
    (h : ∀ j ∈ zones, ¬ j.name = some domain) : get_zone domain zones = {} := by
  unfold get_zone
  have hf : zones.find? (fun zone => zone.name = some domain) = none := by
    rw [List.find?_eq_none]
    intro x hx
    simpa using h x hx
  rw [hf]
  rfl

theorem recordBranch_nopfx (z : String) (st1 : CacheSt) (pfx cur6 : Option String)
    (prov : Provider) (hp : truthyS pfx = false) :
    recordBranch z st1 pfx cur6 prov =
      { calls := resolveZoneCalls z st1 ++ createZoneCalls z (st2of z st1 prov) none cur6,
        persisted := some (createZoneResults (st2of z st1 prov) prov),
        zid := (st3of z st1 prov).zone_id } := by
  unfold recordBranch
  simp [hp]

/-- Claim C6 amended: with no cached or supplied zone id and a zone list
holding no exact (case-sensitive) name match, zone resolution yields no id,
but the run does not fail with any fatal error — instead it issues the
zone-list call and then a create-zone call registering a new zone with the
configured name, and proceeds. -/
theorem claimC6_amended (inp : Inputs) (z : String) (st1 : CacheSt)
    (hz : inp.zone = some z) (hc : cacheLoad z inp.cache = Except.ok st1)
    (hzid : truthyZ st1.zone_id = false)
    (hnom : ∀ j ∈ inp.provider.zonesResp, ¬ j.name = some z) :
    (st2of z st1 inp.provider).zone_id = none ∧
    (runMain inp).calls.take 2 =
      [ApiCall.getZones,
       ApiCall.createZone z none
         (if truthyS inp.current_ipv6 then inp.current_ipv6 else none)] := by
  have hst2 : (st2of z st1 inp.provider).zone_id = none := by
    unfold st2of resolveZoneSt
    rw [if_neg (by simp [hzid])]
    dsimp only
    rw [get_zone_nomatch z inp.provider.zonesResp hnom]
  have hr : resolveZoneCalls z st1 = [ApiCall.getZones] := by
    unfold resolveZoneCalls
    rw [if_neg (by simp [hzid])]
  have hcz : createZoneCalls z (st2of z st1 inp.provider) none inp.current_ipv6 =
      [ApiCall.createZone z none
        (if truthyS inp.current_ipv6 then inp.current_ipv6 else none)] := by
    unfold createZoneCalls
    rw [if_neg (by rw [hst2]; simp [truthyZ])]
    rw [ite_self]
  refine ⟨hst2, ?_⟩
  unfold runMain
  simp only [hz]
  simp only [hc]
  unfold runAfterCache
  rw [if_neg (by intro hcon; rw [hst2] at hcon; simp [truthyZ] at hcon)]
  cases hpv : truthyS inp.pfx with
  | false =>
    rw [recordBranch_nopfx z st1 inp.pfx inp.current_ipv6 inp.provider hpv]
    dsimp only
    rw [hr, hcz]
    rfl
  | true =>
    cases hE : effSt (inp.pfx.getD "") (st3of z st1 inp.provider) inp.provider with
    | error e =>
      rw [recordBranch_err z st1 inp.pfx inp.current_ipv6 inp.provider e hpv hE]
      dsimp only
      rw [hr, hcz]
      rfl
    | ok st4 =>
      rw [recordBranch_ok z st1 inp.pfx inp.current_ipv6 inp.provider st4 hpv hE]
      dsimp only
      rw [hr, hcz]
      rfl

/-- Claim C6 witness: the amended theorem at the concrete no-match run of
the counterexample, with every hypothesis discharged. -/
theorem claimC6_witness :
    truthyZ ({} : CacheSt).zone_id = false ∧
    ((st2of "zz" {} inpC6x.provider).zone_id = none ∧
     (runMain inpC6x).calls.take 2 =
       [ApiCall.getZones,
        ApiCall.createZone "zz" none
          (if truthyS inpC6x.current_ipv6 then inpC6x.current_ipv6 else none)]) :=
  ⟨by decide,
   claimC6_amended inpC6x "zz" {} rfl rfl (by decide) (by decide)⟩

theorem zoneApexRun_nocur (calls0 : List ApiCall) (st : CacheSt) (prov : Provider) :
    zoneApexRun calls0 st none none prov =
      { calls := calls0, persisted := some [], zid := some (st.zone_id.getD 0) } := by
  unfold zoneApexRun
  dsimp only
  rw [ite_self, ite_self]
  rw [if_neg (by simp)]

theorem zoneApexRun_shape (calls0 : List ApiCall) (st : CacheSt) (cur6 : Option String)
    (prov : Provider) :
    ((zoneApexRun calls0 st none cur6 prov).aborted.isSome = true ∧
     (zoneApexRun calls0 st none cur6 prov).persisted = none) ∨
    ((zoneApexRun calls0 st none cur6 prov).aborted = none ∧
     (zoneApexRun calls0 st none cur6 prov).persisted = some [] ∧
     (zoneApexRun calls0 st none cur6 prov).calls = calls0) ∨
    ((zoneApexRun calls0 st none cur6 prov).aborted = none ∧
     (∃ j : JObj, (zoneApexRun calls0 st none cur6 prov).persisted = some [j] ∧
        j.zone_id = some (st.zone_id.getD 0)) ∧
     ApiCall.updateZone (st.zone_id.getD 0) none cur6 ∈
       (zoneApexRun calls0 st none cur6 prov).calls) := by
  unfold zoneApexRun
  dsimp only
  rw [ite_self]
  by_cases hc6 : truthyS cur6 = true ∧ st.zone_ipv6 ≠ cur6
  · rw [if_pos hc6]
    by_cases hs : (none : Option String).isSome = true ∨ cur6.isSome = true
    · rw [if_pos hs]
      split
      · exact Or.inl ⟨rfl, rfl⟩
      · split
        · exact Or.inr (Or.inr ⟨rfl, ⟨_, rfl, rfl⟩,
            List.mem_append_right _ (List.mem_singleton.mpr rfl)⟩)
        · exact Or.inl ⟨rfl, rfl⟩
    · rw [if_neg hs]
      exact Or.inr (Or.inl ⟨rfl, rfl, rfl⟩)
  · rw [if_neg hc6]
    rw [if_neg (by simp)]
    exact Or.inr (Or.inl ⟨rfl, rfl, rfl⟩)

theorem no_zone_write_not_create (l : List ApiCall)
    (hall : l.all (fun c => !c.isZoneWrite) = true)
    (z : String) (a4 a6 : Option String) (hmem : ApiCall.createZone z a4 a6 ∈ l) : False := by
  have := List.all_eq_true.mp hall _ hmem
  simp [ApiCall.isZoneWrite] at this

theorem no_zone_write_not_update (l : List ApiCall)
    (hall : l.all (fun c => !c.isZoneWrite) = true)
    (zid : Int) (a4 a6 : Option String) (hmem : ApiCall.updateZone zid a4 a6 ∈ l) : False := by
  have := List.all_eq_true.mp hall _ hmem
  simp [ApiCall.isZoneWrite] at this

theorem mem_createZoneCalls_self (z : String) (st : CacheSt) (cur6 : Option String)
    (ht : ¬ truthyZ st.zone_id = true) :
    ApiCall.createZone z
      (if truthyS (none : Option String) then (none : Option String) else none)
      (if truthyS cur6 then cur6 else none) ∈ createZoneCalls z st none cur6 := by
  unfold createZoneCalls
  rw [if_neg ht]
  exact List.mem_singleton.mpr rfl

theorem processRecordsList_entries (prov : Provider) (zid : Option Int)
    (items : List (Option Int × Option String × RecordPayload)) :
    ∀ j ∈ (processRecordsList prov zid items).2.2, j.zone_id = none := by
  induction items with
  | nil => intro j hj; cases hj
  | cons item rest ih =>
    intro j hj
    rw [processRecordsList_cons] at hj
    rcases List.mem_cons.mp hj with h | h
    · rw [h]
      exact (processRecord_entry prov zid item).1
    · exact ih j h

/-- Claim C7 amended: if IPv6 discovery returns absent, no API call of the
run carries an AAAA record payload, and whatever snapshot gets persisted
contains no AAAA entry at all — the previously cached IPv6 record is
dropped from the snapshot rather than carried forward. -/
theorem claimC7_amended (inp : Inputs) (h6 : inp.current_ipv6 = none) :
    (∀ c ∈ (runMain inp).calls, ApiCall.refersType "AAAA" c = false) ∧
    (∀ l, (runMain inp).persisted = some l → ∀ j ∈ l, ¬ j.type = some "AAAA") := by
  cases hz : inp.zone with
  | none =>
    have hrm : runMain inp = { aborted := some AbortKind.intOfNone } := by
      unfold runMain
      rw [hz]
    rw [hrm]
    exact ⟨fun c hc => absurd hc (by simp), fun l hl => by cases hl⟩
  | some z =>
    cases hcl : cacheLoad z inp.cache with
    | error e =>
      have hrm : runMain inp = { aborted := some e } := by
        unfold runMain
        simp only [hz]
        simp only [hcl]
      rw [hrm]
      exact ⟨fun c hc => absurd hc (by simp), fun l hl => by cases hl⟩
    | ok st1 =>
      have hrm : runMain inp = runAfterCache z st1 inp.pfx inp.current_ipv6 inp.provider := by
        unfold runMain
        simp only [hz]
        simp only [hcl]
      rw [hrm, h6]
      simp only [runAfterCache]
      by_cases happ : truthyZ (st2of z st1 inp.provider).zone_id = true ∧
          ¬ truthyS inp.pfx = true
      · rw [if_pos happ]
        rw [zoneApexRun_nocur]
        constructor
        · intro c hc
          rw [mem_resolveZoneCalls z st1 c hc]
          rfl
        · intro l hl
          rw [Option.some.injEq] at hl
          subst hl
          intro j hj
          cases hj
      · rw [if_neg happ]
        cases hpv : truthyS inp.pfx with
        | false =>
          rw [recordBranch_nopfx z st1 inp.pfx none inp.provider hpv]
          constructor
          · intro c hc
            rcases List.mem_append.mp hc with hc | hc
            · rw [mem_resolveZoneCalls z st1 c hc]
              rfl
            · rw [mem_createZoneCalls z _ none none c hc]
              rfl
          · intro l hl
            rw [Option.some.injEq] at hl
            subst hl
            intro j hj
            rw [createZoneResults_type _ _ j hj]
            simp
        | true =>
          cases hE : effSt (inp.pfx.getD "") (st3of z st1 inp.provider) inp.provider with
          | error e =>
            rw [recordBranch_err z st1 inp.pfx none inp.provider e hpv hE]
            constructor
            · intro c hc
              rcases List.mem_append.mp hc with hc | hc
              · rcases List.mem_append.mp hc with hc | hc
                · rw [mem_resolveZoneCalls z st1 c hc]
                  rfl
                · rw [mem_createZoneCalls z _ none none c hc]
                  rfl
              · rw [mem_discCalls _ c hc]
                rfl
            · intro l hl; cases hl
          | ok st4 =>
            rw [recordBranch_ok z st1 inp.pfx none inp.provider st4 hpv hE]
            rw [buildRecords_none, processRecordsList_nil]
            constructor
            · intro c hc
              rcases List.mem_append.mp hc with hc | hc
              · rcases List.mem_append.mp hc with hc | hc
                · rcases List.mem_append.mp hc with hc | hc
                  · rw [mem_resolveZoneCalls z st1 c hc]
                    rfl
                  · rw [mem_createZoneCalls z _ none none c hc]
                    rfl
                · rw [mem_discCalls _ c hc]
                  rfl
              · cases hc
            · intro l hl
              dsimp only at hl
              rw [Option.some.injEq] at hl
              subst hl
              intro j hj
              rcases List.mem_append.mp hj with hj | hj
              · rw [createZoneResults_type _ _ j hj]
                simp
              · cases hj

/-- Claim C7 witness: the amended theorem at the concrete failed-discovery
run of the counterexample, with its hypothesis discharged. -/
theorem claimC7_witness :
    inpC7.current_ipv6 = none ∧
    ((∀ c ∈ (runMain inpC7).calls, ApiCall.refersType "AAAA" c = false) ∧
     (∀ l, (runMain inpC7).persisted = some l → ∀ j ∈ l, ¬ j.type = some "AAAA")) :=
  ⟨rfl, claimC7_amended inpC7 rfl⟩

/-- Claim C9 amended: every run that completes persists a snapshot, also
when family actions reported errors; the snapshot holds the produced
records, but an entry carrying the zone identity appears only when the run
issued a zone create or zone update call — otherwise every persisted entry
has no zone id. -/
theorem claimC9_amended (inp : Inputs) (hok : (runMain inp).aborted = none) :
    (runMain inp).persisted.isSome = true ∧
    ((runMain inp).calls.all (fun c => !c.isZoneWrite) = true →
      ∀ l, (runMain inp).persisted = some l → ∀ j ∈ l, j.zone_id = none) := by
  cases hz : inp.zone with
  | none =>
    have hrm : runMain inp = { aborted := some AbortKind.intOfNone } := by
      unfold runMain
      rw [hz]
    rw [hrm] at hok
    cases hok
  | some z =>
    cases hcl : cacheLoad z inp.cache with
    | error e =>
      have hrm : runMain inp = { aborted := some e } := by
        unfold runMain
        simp only [hz]
        simp only [hcl]
      rw [hrm] at hok
      cases hok
    | ok st1 =>
      have hrm : runMain inp = runAfterCache z st1 inp.pfx inp.current_ipv6 inp.provider := by
        unfold runMain
        simp only [hz]
        simp only [hcl]
      rw [hrm] at hok ⊢
      simp only [runAfterCache] at hok ⊢
      by_cases happ : truthyZ (st2of z st1 inp.provider).zone_id = true ∧
          ¬ truthyS inp.pfx = true
      · rw [if_pos happ] at hok ⊢
        rcases zoneApexRun_shape (resolveZoneCalls z st1) (st2of z st1 inp.provider)
            inp.current_ipv6 inp.provider with
          ⟨ha, hpn⟩ | ⟨ha, hpn, hcalls⟩ | ⟨ha, ⟨j, hpn, hjz⟩, hmem⟩
        · rw [hok] at ha
          cases ha
        · constructor
          · rw [hpn]
            rfl
          · intro hall l hl jx hjx
            rw [hpn, Option.some.injEq] at hl
            subst hl
            cases hjx
        · constructor
          · rw [hpn]
            rfl
          · intro hall l hl jx hjx
            exact absurd hmem (fun hm => no_zone_write_not_update _ hall _ _ _ hm)
      · rw [if_neg happ] at hok ⊢
        cases hpv : truthyS inp.pfx with
        | false =>
          rw [recordBranch_nopfx z st1 inp.pfx inp.current_ipv6 inp.provider hpv] at hok ⊢
          constructor
          · rfl
          · intro hall l hl j hj
            dsimp only at hl hall
            rw [Option.some.injEq] at hl
            subst hl
            by_cases ht : truthyZ (st2of z st1 inp.provider).zone_id = true
            · rw [createZoneResults_truthy _ _ ht] at hj
              cases hj
            · exact absurd
                (List.mem_append_right _ (mem_createZoneCalls_self z _ inp.current_ipv6 ht))
                (fun hm => no_zone_write_not_create _ hall _ _ _ hm)
        | true =>
          cases hE : effSt (inp.pfx.getD "") (st3of z st1 inp.provider) inp.provider with
          | error e =>
            rw [recordBranch_err z st1 inp.pfx inp.current_ipv6 inp.provider e hpv hE] at hok
            cases hok
          | ok st4 =>
            rw [recordBranch_ok z st1 inp.pfx inp.current_ipv6 inp.provider st4 hpv hE] at hok ⊢
            constructor
            · rfl
            · intro hall l hl j hj
              dsimp only at hl hall
              rw [Option.some.injEq] at hl
              subst hl
              rcases List.mem_append.mp hj with hj | hj
              · by_cases ht : truthyZ (st2of z st1 inp.provider).zone_id = true
                · rw [createZoneResults_truthy _ _ ht] at hj
                  cases hj
                · have hmemc : ApiCall.createZone z
                      (if truthyS (none : Option String) then (none : Option String) else none)
                      (if truthyS inp.current_ipv6 then inp.current_ipv6 else none) ∈
                      resolveZoneCalls z st1 ++
                        createZoneCalls z (st2of z st1 inp.provider) none inp.current_ipv6 ++
                        discCalls (st3of z st1 inp.provider) ++
                        (processRecordsList inp.provider (st3of z st1 inp.provider).zone_id
                          (buildRecords (inp.pfx.getD "") none inp.current_ipv6 st4)).1 :=
                    List.mem_append_left _ (List.mem_append_left _
                      (List.mem_append_right _ (mem_createZoneCalls_self z _ inp.current_ipv6 ht)))
                  exact (no_zone_write_not_create _ hall _ _ _ hmemc).elim
              · exact processRecordsList_entries inp.provider _ _ j hj

/-- Claim C9 witness: a run with a failing record update still persists,
and its snapshot carries no zone entry; every hypothesis discharged. -/
theorem claimC9_witness :
    (runMain inpC9w).aborted = none ∧
    (runMain inpC9w).errors = [ErrReport.updateFailed 7] ∧
    ((runMain inpC9w).persisted.isSome = true ∧
     ((runMain inpC9w).calls.all (fun c => !c.isZoneWrite) = true →
       ∀ l, (runMain inpC9w).persisted = some l → ∀ j ∈ l, j.zone_id = none)) :=
  ⟨by decide, by decide, claimC9_amended inpC9w (by decide)⟩
